import Mathlib

/-!
Verification of the parallel orchestration strategy
(`ParallelOrchestrationStrategy` in package `strategies`) and of the
orchestration HTTP retry handler (`orchestration_handler.go`).

Shallow embedding conventions:
* Go `time.Time` is modelled as an `Int` tick count in seconds since the
  Unix epoch; `IsZero` is `= 0`, `Before` is `<`, `Add`/`AddDate(0,0,d)`
  are addition of seconds.  The Unix epoch (tick 0) fell on a Thursday,
  which fixes the weekday of every tick.
* Go `time.Duration` is an `Int` number of seconds (`time.Until(t)` is
  `t - now`).
* Go `error` is `Option String` (`none` = nil).
* The Go maps `dq`, `wg`, `processingNum` keyed by execution ID are
  association lists `List (String × _)`; a missing key reads the zero
  value, exactly as a Go map read does.
* Effects of the executor capability are passed in as explicit function
  arguments (`reschedule`) or as an explicit outcome value (`ExecOutcome`
  for `Executor.Execute`, whose `panicked` constructor stands for a call
  that panics); the strategy's own state updates are explicit state
  passing.
-/

/-- Go `time.Weekday` (Sunday = 0 … Saturday = 6). -/
inductive Weekday where
  | sunday
  | monday
  | tuesday
  | wednesday
  | thursday
  | friday
  | saturday
deriving DecidableEq, Repr

def Weekday.toIdx : Weekday → Nat
  | .sunday => 0
  | .monday => 1
  | .tuesday => 2
  | .wednesday => 3
  | .thursday => 4
  | .friday => 5
  | .saturday => 6

def Weekday.ofIdx (n : Nat) : Weekday :=
  match n % 7 with
  | 0 => .sunday
  | 1 => .monday
  | 2 => .tuesday
  | 3 => .wednesday
  | 4 => .thursday
  | 5 => .friday
  | _ => .saturday

def secondsPerDay : Int := 86400

def hourSeconds : Int := 3600

/-- Weekday of a tick count: tick 0 (the Unix epoch) is a Thursday. -/
def weekdayOfTime (t : Int) : Weekday :=
  Weekday.ofIdx ((t.ediv secondsPerDay + 4).emod 7).toNat

/-- Stepping `n` days forward from weekday `w`. -/
def addDays (w : Weekday) (n : Nat) : Weekday := Weekday.ofIdx (w.toIdx + n)

/-- Modelled from the spec: `orchestration.ConvertSliceOfDaysToMap` (its source
is not under src/; only its call site in `updateMaintenanceWindow` is) turns
the slice of allowed maintenance days into a membership map. -/
def ConvertSliceOfDaysToMap (days : List Weekday) : Weekday → Bool :=
  fun d => days.contains d

/-- Modelled from the spec: `orchestration.NextAvailableDayDiff` (its source is
not under src/; only its call site in `updateMaintenanceWindow` is) returns the
smallest positive number of days that steps `currentDay` onto an allowed
weekday; with no allowed weekday in range the spec leaves the behaviour
undefined and the model returns 0. -/
def NextAvailableDayDiff (currentDay : Weekday) (allowed : Weekday → Bool) : Int :=
  match (List.range 7).find? (fun k => allowed (addDays currentDay (k + 1))) with
  | some k => (k : Int) + 1
  | none => 0

/-- `orchestration.RuntimeOperation`, restricted to the fields the strategy
reads: ID and the maintenance-scheduling fields. -/
structure RuntimeOperation where
  id : String
  maintenanceWindowBegin : Int
  maintenanceWindowEnd : Int
  maintenanceDays : List Weekday
deriving DecidableEq, Repr

/-- `orchestration.StrategySpec.Schedule`. -/
inductive Schedule where
  | immediate
  | maintenanceWindow
deriving DecidableEq, Repr

structure ParallelSpec where
  workers : Nat
deriving DecidableEq, Repr

/-- `orchestration.StrategySpec`, restricted to the fields the strategy reads. -/
structure StrategySpec where
  schedule : Schedule
  parallel : ParallelSpec
deriving DecidableEq, Repr

/-- The message of the wrapped error that `updateMaintenanceWindow` builds on
the reschedule-failure path. -/
def rescheduleWrapMsg : String :=
  "while rescheduling operation by executor (still continuing with new schedule)"

/-- `errors.Wrap(err, msg)`. -/
def wrapErr (msg e : String) : String := msg ++ ": " ++ e

/-- Result of one `updateMaintenanceWindow` call: the (possibly mutated)
operation, the returned duration and error, and the `Executor.Reschedule`
call issued on the way (if any). -/
structure MWResult where
  op : RuntimeOperation
  duration : Int
  err : Option String
  rescheduleCall : Option (String × Int × Int)
deriving DecidableEq, Repr

/-- `(p *ParallelOrchestrationStrategy) updateMaintenanceWindow`.  The
receiver's `p.rescheduleDelay` field and the executor's `Reschedule` are
passed explicitly; `now` stands for `time.Now()`. -/
def updateMaintenanceWindow (rescheduleDelay : Int)
    (reschedule : String → Int → Int → Option String) (now : Int)
    (op : RuntimeOperation) (schedule : Schedule) : MWResult :=
  match schedule with
  | .maintenanceWindow =>
    if op.maintenanceWindowEnd ≠ 0 ∧ op.maintenanceWindowEnd < now then
      let op' :=
        if rescheduleDelay > 0 then
          { op with
            maintenanceWindowBegin := op.maintenanceWindowBegin + rescheduleDelay,
            maintenanceWindowEnd := op.maintenanceWindowEnd + rescheduleDelay }
        else
          let currentDay := weekdayOfTime op.maintenanceWindowBegin
          let diff := NextAvailableDayDiff currentDay
            (ConvertSliceOfDaysToMap op.maintenanceDays)
          { op with
            maintenanceWindowBegin := op.maintenanceWindowBegin + diff * secondsPerDay,
            maintenanceWindowEnd := op.maintenanceWindowEnd + diff * secondsPerDay }
      match reschedule op'.id op'.maintenanceWindowBegin op'.maintenanceWindowEnd with
      | some e =>
        -- the source builds `errors.Wrap(err, …)` here but discards it and
        -- returns the still-zero `duration` together with the original error
        let _wrapped := wrapErr rescheduleWrapMsg e
        { op := op'
          duration := 0
          err := some e
          rescheduleCall :=
            some (op'.id, op'.maintenanceWindowBegin, op'.maintenanceWindowEnd) }
      | none =>
        { op := op'
          duration := op'.maintenanceWindowBegin - now
          err := none
          rescheduleCall :=
            some (op'.id, op'.maintenanceWindowBegin, op'.maintenanceWindowEnd) }
    else
      { op := op
        duration := op.maintenanceWindowBegin - now
        err := none
        rescheduleCall := none }
  | .immediate =>
    { op := op, duration := 0, err := none, rescheduleCall := none }

/-- Claim C5: with `Schedule = Immediate` the policy returns a zero delay and
a nil error; with `Schedule = MaintenanceWindow` and a window that has not
elapsed (zero `WindowEnd`, or `WindowEnd` not before `now`) it returns
`MaintenanceWindowBegin - now` (possibly `≤ 0`) and a nil error, without
touching the operation or calling `Executor.Reschedule`. -/
theorem updateMaintenanceWindow_immediate_and_pending (rescheduleDelay now : Int)
    (reschedule : String → Int → Int → Option String) (op : RuntimeOperation)
    (hpending : ¬ (op.maintenanceWindowEnd ≠ 0 ∧ op.maintenanceWindowEnd < now)) :
    updateMaintenanceWindow rescheduleDelay reschedule now op .immediate
      = { op := op, duration := 0, err := none, rescheduleCall := none }
    ∧ updateMaintenanceWindow rescheduleDelay reschedule now op .maintenanceWindow
      = { op := op, duration := op.maintenanceWindowBegin - now, err := none,
          rescheduleCall := none } := by
  constructor
  · rfl
  · unfold updateMaintenanceWindow
    rw [if_neg hpending]

theorem updateMaintenanceWindow_immediate_and_pending_witness :
    let op : RuntimeOperation :=
      { id := "op-a", maintenanceWindowBegin := 50, maintenanceWindowEnd := 200,
        maintenanceDays := [] }
    ¬ (op.maintenanceWindowEnd ≠ 0 ∧ op.maintenanceWindowEnd < 100)
    ∧ updateMaintenanceWindow 0 (fun _ _ _ => none) 100 op .immediate
        = { op := op, duration := 0, err := none, rescheduleCall := none }
    ∧ updateMaintenanceWindow 0 (fun _ _ _ => none) 100 op .maintenanceWindow
        = { op := op, duration := 50 - 100, err := none, rescheduleCall := none } := by
  refine ⟨by decide, ?_⟩
  exact updateMaintenanceWindow_immediate_and_pending 0 100 (fun _ _ _ => none) _ (by decide)

/-- Claim C6: when the window has elapsed and `Executor.Reschedule` fails, the
function returns the original (unwrapped) executor error together with a zero
duration; the wrapped error value built on this path is discarded (the
returned error is never the wrapped string, which is strictly longer). -/
theorem updateMaintenanceWindow_reschedule_error (rescheduleDelay now : Int)
    (op : RuntimeOperation) (e : String)
    (reschedule : String → Int → Int → Option String)
    (helapsed : op.maintenanceWindowEnd ≠ 0 ∧ op.maintenanceWindowEnd < now)
    (hfail : ∀ i b fin, reschedule i b fin = some e) :
    (updateMaintenanceWindow rescheduleDelay reschedule now op .maintenanceWindow).err
        = some e
    ∧ (updateMaintenanceWindow rescheduleDelay reschedule now op .maintenanceWindow).duration
        = 0
    ∧ (updateMaintenanceWindow rescheduleDelay reschedule now op .maintenanceWindow).err
        ≠ some (wrapErr rescheduleWrapMsg e) := by
  have hwrap : wrapErr rescheduleWrapMsg e ≠ e := by
    intro h
    have hlen : (wrapErr rescheduleWrapMsg e).length = e.length :=
      congrArg String.length h
    have h2 : (": ").length = 2 := rfl
    rw [wrapErr, String.length_append, String.length_append, h2] at hlen
    omega
  refine ⟨?_, ?_, ?_⟩
  · unfold updateMaintenanceWindow
    rw [if_pos helapsed]
    by_cases hd : rescheduleDelay > 0 <;> simp [hd, hfail]
  · unfold updateMaintenanceWindow
    rw [if_pos helapsed]
    by_cases hd : rescheduleDelay > 0 <;> simp [hd, hfail]
  · unfold updateMaintenanceWindow
    rw [if_pos helapsed]
    by_cases hd : rescheduleDelay > 0 <;> simp [hd, hfail] <;>
      exact fun h => hwrap h.symm

theorem updateMaintenanceWindow_reschedule_error_witness :
    let op : RuntimeOperation :=
      { id := "op-b", maintenanceWindowBegin := 10, maintenanceWindowEnd := 20,
        maintenanceDays := [Weekday.tuesday] }
    let r := updateMaintenanceWindow 7 (fun _ _ _ => some "storage down") 100 op
      .maintenanceWindow
    r.err = some "storage down" ∧ r.duration = 0
    ∧ r.err ≠ some (wrapErr rescheduleWrapMsg "storage down") := by
  exact updateMaintenanceWindow_reschedule_error 7 100 _ "storage down"
    (fun _ _ _ => some "storage down") (by decide) (fun _ _ _ => rfl)

/-- Association-list lookup, modelling a read of a Go map keyed by string. -/
def lookupA {α : Type} : List (String × α) → String → Option α
  | [], _ => none
  | (k, v) :: t, key => if k = key then some v else lookupA t key

/-- Association-list write, modelling `m[key] = v` on a Go map. -/
def setA {α : Type} : List (String × α) → String → α → List (String × α)
  | [], key, v => [(key, v)]
  | (k, w) :: t, key, v =>
    if k = key then (key, v) :: t else (k, w) :: setA t key v

theorem lookupA_setA_eq {α : Type} (l : List (String × α)) (k : String) (v : α) :
    lookupA (setA l k v) k = some v := by
  induction l with
  | nil => simp [setA, lookupA]
  | cons hd t ih =>
    obtain ⟨k', w⟩ := hd
    by_cases h : k' = k <;> simp [setA, lookupA, h, ih]

theorem lookupA_setA_ne {α : Type} (l : List (String × α)) (k k' : String) (v : α)
    (h : k ≠ k') : lookupA (setA l k v) k' = lookupA l k' := by
  induction l with
  | nil => simp [setA, lookupA, h]
  | cons hd t ih =>
    obtain ⟨k'', w⟩ := hd
    by_cases h2 : k'' = k <;> simp [setA, lookupA, h2, h, ih]

theorem setA_setA {α : Type} (l : List (String × α)) (k : String) (v v' : α) :
    setA (setA l k v) k v' = setA l k v' := by
  induction l with
  | nil => simp [setA]
  | cons hd t ih =>
    obtain ⟨k', w⟩ := hd
    by_cases h : k' = k <;> simp [setA, h, ih]

/-- The `workqueue.DelayingInterface` state the strategy observes: the
scheduled items still inside the queue (with the delay they were added
with), the identities currently between `Get` and `Done`, and the
shutdown flag. -/
structure DelayQueue where
  items : List (RuntimeOperation × Int)
  processing : List String
  shuttingDown : Bool
deriving DecidableEq, Repr

def emptyDelayQueue : DelayQueue :=
  { items := [], processing := [], shuttingDown := false }

/-- `ParallelOrchestrationStrategy` (its `executor`, `log` and `mux` fields
carry no modelled state: the executor is passed to each operation
explicitly, logging has no effect on the state, and the mutex only guards
the maps). -/
structure ParallelOrchestrationStrategy where
  dq : List (String × DelayQueue)
  wg : List (String × Nat)
  rescheduleDelay : Int
  processingNum : List (String × Int)
deriving DecidableEq, Repr

/-- `NewParallelOrchestrationStrategy`: a nonpositive `rescheduleDelay` is
replaced by 24 hours. -/
def NewParallelOrchestrationStrategy (rescheduleDelay : Int) :
    ParallelOrchestrationStrategy :=
  let strategy : ParallelOrchestrationStrategy :=
    { dq := [], wg := [], rescheduleDelay := rescheduleDelay, processingNum := [] }
  if strategy.rescheduleDelay ≤ 0 then
    { strategy with rescheduleDelay := 24 * hourSeconds }
  else
    strategy

theorem updateMW_elapsed_posDelay (rd : Int) (hrd : rd > 0)
    (reschedule : String → Int → Int → Option String) (now : Int)
    (op : RuntimeOperation)
    (helapsed : op.maintenanceWindowEnd ≠ 0 ∧ op.maintenanceWindowEnd < now) :
    (updateMaintenanceWindow rd reschedule now op .maintenanceWindow).op
      = { op with
          maintenanceWindowBegin := op.maintenanceWindowBegin + rd,
          maintenanceWindowEnd := op.maintenanceWindowEnd + rd }
    ∧ (updateMaintenanceWindow rd reschedule now op .maintenanceWindow).rescheduleCall
      = some (op.id, op.maintenanceWindowBegin + rd, op.maintenanceWindowEnd + rd) := by
  unfold updateMaintenanceWindow
  rw [if_pos helapsed]
  simp only [if_pos hrd]
  cases hcall : reschedule op.id (op.maintenanceWindowBegin + rd)
      (op.maintenanceWindowEnd + rd) <;>
    simp [hcall]

/-- Claim C2 counterexample: the strategy is configured with no positive
reschedule delay (`NewParallelOrchestrationStrategy 0`), the operation's
window has elapsed, its `WindowBegin` falls on a Monday and
`MaintenanceDays = [thursday]`; the claim demands a shift of 3 days (the
smallest positive offset landing on Thursday), but the policy passes
`Executor.Reschedule` a window shifted by only 1 day, landing on Tuesday,
which is not an allowed maintenance day. -/
theorem C2_counterexample_constructor_defaults_delay :
    let op : RuntimeOperation :=
      { id := "op-1", maintenanceWindowBegin := 345600,
        maintenanceWindowEnd := 349200, maintenanceDays := [Weekday.thursday] }
    let p := NewParallelOrchestrationStrategy 0
    let r := updateMaintenanceWindow p.rescheduleDelay (fun _ _ _ => none) 864000 op
      .maintenanceWindow
    weekdayOfTime op.maintenanceWindowBegin = Weekday.monday
    ∧ NextAvailableDayDiff Weekday.monday
        (ConvertSliceOfDaysToMap op.maintenanceDays) = 3
    ∧ r.rescheduleCall = some ("op-1", 432000, 435600)
    ∧ r.op.maintenanceWindowBegin
        = op.maintenanceWindowBegin + 1 * secondsPerDay
    ∧ r.op.maintenanceWindowBegin
        ≠ op.maintenanceWindowBegin + 3 * secondsPerDay
    ∧ ConvertSliceOfDaysToMap op.maintenanceDays
        (weekdayOfTime r.op.maintenanceWindowBegin) = false := by
  decide

/-- Claim C2 as amended: whenever the strategy is constructed with a
nonpositive reschedule delay, `NewParallelOrchestrationStrategy` replaces
the delay by 24 hours, so for an operation whose window has elapsed the
policy shifts both `MaintenanceWindowBegin` and `MaintenanceWindowEnd`
forward by 24 hours — not by the weekday-based day count — and passes that
shifted window to `Executor.Reschedule`. -/
theorem updateMaintenanceWindow_constructor_nonpositive_delay (d : Int) (hd : d ≤ 0)
    (reschedule : String → Int → Int → Option String) (now : Int)
    (op : RuntimeOperation)
    (helapsed : op.maintenanceWindowEnd ≠ 0 ∧ op.maintenanceWindowEnd < now) :
    (updateMaintenanceWindow (NewParallelOrchestrationStrategy d).rescheduleDelay
        reschedule now op .maintenanceWindow).op
      = { op with
          maintenanceWindowBegin := op.maintenanceWindowBegin + 24 * hourSeconds,
          maintenanceWindowEnd := op.maintenanceWindowEnd + 24 * hourSeconds }
    ∧ (updateMaintenanceWindow (NewParallelOrchestrationStrategy d).rescheduleDelay
        reschedule now op .maintenanceWindow).rescheduleCall
      = some (op.id, op.maintenanceWindowBegin + 24 * hourSeconds,
          op.maintenanceWindowEnd + 24 * hourSeconds) := by
  have hp : (NewParallelOrchestrationStrategy d).rescheduleDelay = 24 * hourSeconds := by
    simp [NewParallelOrchestrationStrategy, hd]
  rw [hp]
  exact updateMW_elapsed_posDelay (24 * hourSeconds) (by norm_num [hourSeconds])
    reschedule now op helapsed

theorem updateMaintenanceWindow_constructor_nonpositive_delay_witness :
    let op : RuntimeOperation :=
      { id := "op-1", maintenanceWindowBegin := 345600,
        maintenanceWindowEnd := 349200, maintenanceDays := [Weekday.thursday] }
    (0 : Int) ≤ 0
    ∧ (op.maintenanceWindowEnd ≠ 0 ∧ op.maintenanceWindowEnd < 864000)
    ∧ (updateMaintenanceWindow (NewParallelOrchestrationStrategy 0).rescheduleDelay
        (fun _ _ _ => none) 864000 op .maintenanceWindow).op
      = { op with
          maintenanceWindowBegin := op.maintenanceWindowBegin + 24 * hourSeconds,
          maintenanceWindowEnd := op.maintenanceWindowEnd + 24 * hourSeconds }
    ∧ (updateMaintenanceWindow (NewParallelOrchestrationStrategy 0).rescheduleDelay
        (fun _ _ _ => none) 864000 op .maintenanceWindow).rescheduleCall
      = some (op.id, op.maintenanceWindowBegin + 24 * hourSeconds,
          op.maintenanceWindowEnd + 24 * hourSeconds) := by
  refine ⟨by decide, by decide, ?_⟩
  exact updateMaintenanceWindow_constructor_nonpositive_delay 0 (by decide)
    (fun _ _ _ => none) 864000 _ (by decide)

/-- `p.dq[execID].AddAfter(op, delay)`.  On the modelled paths the execution
ID is always registered; in Go an unregistered ID would make the receiver a
nil interface and panic, so the `none` branch is unreachable there. -/
def addAfterS (p : ParallelOrchestrationStrategy) (execID : String)
    (op : RuntimeOperation) (delay : Int) : ParallelOrchestrationStrategy :=
  match lookupA p.dq execID with
  | none => p
  | some q =>
    { p with dq := setA p.dq execID { q with items := q.items ++ [(op, delay)] } }

/-- `p.dq[execID].Done(op)`: the identity leaves the processing set. -/
def doneQ (p : ParallelOrchestrationStrategy) (execID : String)
    (op : RuntimeOperation) : ParallelOrchestrationStrategy :=
  match lookupA p.dq execID with
  | none => p
  | some q =>
    { p with dq := setA p.dq execID { q with processing := q.processing.erase op.id } }

/-- `p.processingNum[execID]--` under the mutex; a missing key reads the Go
zero value 0 and is written back as -1, as for a Go map. -/
def decrementNum (p : ParallelOrchestrationStrategy) (execID : String) :
    ParallelOrchestrationStrategy :=
  { p with
    processingNum :=
      setA p.processingNum execID ((lookupA p.processingNum execID).getD 0 - 1) }

/-- `handleRescheduleErrorOperation`: re-enqueue with a 24-hour delay. -/
def handleRescheduleErrorOperation (p : ParallelOrchestrationStrategy)
    (execID : String) (op : RuntimeOperation) : ParallelOrchestrationStrategy :=
  addAfterS p execID op (24 * hourSeconds)

/-- The `createWorker` loop of `Execute`: each of the `n` workers does
`p.wg[execID].Add(1)` before its goroutine starts. -/
def createWorkers (p : ParallelOrchestrationStrategy) (execID : String) (n : Nat) :
    ParallelOrchestrationStrategy :=
  { p with wg := setA p.wg execID ((lookupA p.wg execID).getD 0 + n) }

/-- Outcome of one `Executor.Execute(id)` call: a normal return
`(whenToRetry, err)` with nil or non-nil error, or a panic. -/
inductive ExecOutcome where
  | ok (whenToRetry : Int)
  | fail (whenToRetry : Int) (msg : String)
  | panicked (msg : String)
deriving DecidableEq, Repr

/-- `processOperation`, given the outcome of the `Executor.Execute` call.
The deferred function runs last: it recovers a panic (the worker survives)
and always calls `Done`.  On a panic, control jumps from the executor call
straight to the deferred function, so the counter decrement below the call
is skipped. -/
def processOperation (p : ParallelOrchestrationStrategy) (execID : String)
    (op : RuntimeOperation) (outcome : ExecOutcome) :
    ParallelOrchestrationStrategy :=
  match outcome with
  | .panicked _ => doneQ p execID op
  | .ok whenToRetry =>
    if whenToRetry ≠ 0 then
      doneQ (addAfterS p execID op whenToRetry) execID op
    else
      doneQ (decrementNum p execID) execID op
  | .fail _ _ => doneQ (decrementNum p execID) execID op

/-- One `AddAfter` call of `Execute`'s enqueue loop, before pointer
resolution.  The success path adds `&operations[i]` — a fresh pointer per
index, holding the unmutated slice element (`updateMaintenanceWindow`
mutates only the copy `op`).  The error path adds `&op`, the address of
the loop's single range variable: the source predates Go 1.22, so every
iteration reuses one cell, every error-path add carries the same pointer,
and the workqueue coalesces duplicate items by identity. -/
inductive RawEntry where
  | direct (op : RuntimeOperation) (delay : Int)
  | sharedRef (delay : Int)
deriving DecidableEq, Repr

/-- The mutable state of `Execute`'s range loop: the current contents of
the shared loop variable `op`, whether `&op` is already sitting in the
queue (a second `AddAfter(&op, …)` is coalesced, keeping the earlier ready
time), and the `AddAfter` calls issued so far. -/
structure LoopState where
  cell : RuntimeOperation
  hasShared : Bool
  raw : List RawEntry
deriving DecidableEq, Repr

/-- One iteration of `Execute`'s enqueue loop: `op` (the shared cell) is
assigned the next element, `updateMaintenanceWindow` mutates it in place,
and on a policy error `handleRescheduleErrorOperation(execID, &op)` adds
the shared pointer with the 24-hour delay, otherwise `&operations[i]` is
added with the computed duration. -/
def enqueueLoopStep (reschedule : String → Int → Int → Option String)
    (now : Int) (schedule : Schedule) (rescheduleDelay : Int)
    (s : LoopState) (op : RuntimeOperation) : LoopState :=
  let r := updateMaintenanceWindow rescheduleDelay reschedule now op schedule
  match r.err with
  | some _ =>
    { cell := r.op
      hasShared := true
      raw := if s.hasShared then s.raw
             else s.raw ++ [RawEntry.sharedRef (24 * hourSeconds)] }
  | none =>
    { cell := r.op
      hasShared := s.hasShared
      raw := s.raw ++ [RawEntry.direct op r.duration] }

/-- Dereferencing a queue entry once the loop has finished: a `sharedRef`
entry reads whatever the shared loop variable last held. -/
def resolveRaw (cell : RuntimeOperation) : RawEntry → RuntimeOperation × Int
  | .direct op delay => (op, delay)
  | .sharedRef delay => (cell, delay)

/-- The Go zero value `RuntimeOperation{}`, the contents of the loop cell
before the first iteration. -/
def zeroRuntimeOperation : RuntimeOperation :=
  { id := "", maintenanceWindowBegin := 0, maintenanceWindowEnd := 0,
    maintenanceDays := [] }

/-- `Execute`.  The fresh `uuid.New().String()` is passed in as `execID`;
`reschedule` is the executor's `Reschedule` capability and `now` the clock
reading used by the maintenance-window checks of the enqueue loop.  The
queue's items are recorded as the values the stored pointers dereference
to after the loop has ended (the shared cell is not written again once the
loop finishes). -/
def Execute (p : ParallelOrchestrationStrategy)
    (reschedule : String → Int → Int → Option String) (now : Int)
    (execID : String) (operations : List RuntimeOperation)
    (strategySpec : StrategySpec) :
    ParallelOrchestrationStrategy × String × Option String :=
  if operations.length = 0 then
    (p, "", none)
  else
    let fin := operations.foldl
      (enqueueLoopStep reschedule now strategySpec.schedule p.rescheduleDelay)
      { cell := zeroRuntimeOperation, hasShared := false, raw := [] }
    let p1 : ParallelOrchestrationStrategy :=
      { p with
        processingNum := setA p.processingNum execID (Int.ofNat operations.length),
        wg := setA p.wg execID 0,
        dq := setA p.dq execID
          { emptyDelayQueue with items := fin.raw.map (resolveRaw fin.cell) } }
    let p3 := createWorkers p1 execID strategySpec.parallel.workers
    (p3, execID, none)

/-- `Wait`: reads `p.wg[executionID]`; a nil wait-group returns at once.
The second component records whether the call blocks (a registered
wait-group blocks until its worker count reaches zero). -/
def Wait (p : ParallelOrchestrationStrategy) (executionID : String) :
    ParallelOrchestrationStrategy × Bool :=
  match lookupA p.wg executionID with
  | none => (p, false)
  | some n => (p, decide (0 < n))

/-- `Cancel`: an empty ID returns immediately; otherwise the execution's
queue, when registered, is shut down. -/
def Cancel (p : ParallelOrchestrationStrategy) (executionID : String) :
    ParallelOrchestrationStrategy :=
  if executionID = "" then
    p
  else
    match lookupA p.dq executionID with
    | none => p
    | some q =>
      { p with dq := setA p.dq executionID { q with shuttingDown := true } }

theorem setA_lookup_self {α : Type} (l : List (String × α)) (k : String) (v : α)
    (h : lookupA l k = some v) : setA l k v = l := by
  induction l with
  | nil => simp [lookupA] at h
  | cons hd t ih =>
    obtain ⟨k', w⟩ := hd
    by_cases h2 : k' = k
    · subst h2
      simp [lookupA] at h
      simp [setA, h]
    · simp [lookupA, h2] at h
      simp [setA, h2, ih h]

/-- Claim C9: on the empty operations list, `Execute` returns the empty
execution ID and a nil error and leaves the strategy state untouched — no
queue, wait-group or counter is registered. -/
theorem Execute_empty_noop (p : ParallelOrchestrationStrategy)
    (reschedule : String → Int → Int → Option String) (now : Int) (execID : String)
    (strategySpec : StrategySpec) :
    Execute p reschedule now execID [] strategySpec = (p, "", none) := rfl

/-- Claim C10: `Wait` on an execution ID with no registered wait-group
(the empty string included) returns immediately — it does not block — and
leaves the state unchanged. -/
theorem Wait_unregistered_returns (p : ParallelOrchestrationStrategy)
    (executionID : String) (h : lookupA p.wg executionID = none) :
    Wait p executionID = (p, false) := by
  unfold Wait
  rw [h]

theorem Wait_unregistered_returns_witness :
    let p : ParallelOrchestrationStrategy :=
      { dq := [("exec-1", emptyDelayQueue)], wg := [("exec-1", 2)],
        rescheduleDelay := 5, processingNum := [("exec-1", 1)] }
    (lookupA p.wg "" = none ∧ Wait p "" = (p, false))
    ∧ (lookupA p.wg "ghost" = none ∧ Wait p "ghost" = (p, false)) := by
  exact ⟨⟨by decide, Wait_unregistered_returns _ "" (by decide)⟩,
    ⟨by decide, Wait_unregistered_returns _ "ghost" (by decide)⟩⟩

/-- Claim C7: `Cancel` is idempotent — cancelling the same execution ID
twice leaves the same state as cancelling it once — and `Cancel` on the
empty execution ID or on an ID with no registered queue changes no state. -/
theorem Cancel_idempotent_total (p : ParallelOrchestrationStrategy) (x : String) :
    Cancel (Cancel p x) x = Cancel p x
    ∧ Cancel p "" = p
    ∧ (lookupA p.dq x = none → Cancel p x = p) := by
  have hempty : Cancel p "" = p := by
    unfold Cancel
    rw [if_pos rfl]
  have hnone : ∀ (s : ParallelOrchestrationStrategy), x ≠ "" →
      lookupA s.dq x = none → Cancel s x = s := by
    intro s hx h
    unfold Cancel
    rw [if_neg hx, h]
  refine ⟨?_, hempty, ?_⟩
  · by_cases hx : x = ""
    · subst hx
      rw [hempty, hempty]
    · cases hq : lookupA p.dq x with
      | none =>
        rw [hnone p hx hq, hnone p hx hq]
      | some q =>
        have h1 : Cancel p x
            = { p with dq := setA p.dq x { q with shuttingDown := true } } := by
          unfold Cancel
          rw [if_neg hx, hq]
        rw [h1]
        unfold Cancel
        rw [if_neg hx, lookupA_setA_eq]
        simp [setA_setA]
  · intro h
    by_cases hx : x = ""
    · subst hx; exact hempty
    · exact hnone p hx h

theorem Cancel_idempotent_total_witness :
    let p : ParallelOrchestrationStrategy :=
      { dq := [("exec-1", emptyDelayQueue)], wg := [("exec-1", 2)],
        rescheduleDelay := 5, processingNum := [("exec-1", 1)] }
    (Cancel (Cancel p "exec-1") "exec-1" = Cancel p "exec-1"
     ∧ Cancel p "" = p
     ∧ (lookupA p.dq "exec-1" = none → Cancel p "exec-1" = p))
    ∧ (Cancel (Cancel p "ghost") "ghost" = Cancel p "ghost"
       ∧ Cancel p "" = p
       ∧ (lookupA p.dq "ghost" = none → Cancel p "ghost" = p))
    ∧ lookupA p.dq "ghost" = none ∧ Cancel p "ghost" = p := by
  refine ⟨Cancel_idempotent_total _ "exec-1", Cancel_idempotent_total _ "ghost",
    by decide, (Cancel_idempotent_total _ "ghost").2.2 (by decide)⟩

/-- Claim C4: when the executor returns a nonzero retry delay with a nil
error, `processOperation` re-enqueues the operation after that delay and
leaves the outstanding counter untouched; when the executor returns an
error, or a zero delay with a nil error, the counter is decremented exactly
once and the operation is not re-enqueued. -/
theorem processOperation_accounting (p : ParallelOrchestrationStrategy)
    (execID : String) (op : RuntimeOperation) (Q : DelayQueue) (n : Int)
    (w : Int) (m : String)
    (hq : lookupA p.dq execID = some Q)
    (hn : lookupA p.processingNum execID = some n)
    (hw : w ≠ 0) :
    ((processOperation p execID op (.ok w)).processingNum = p.processingNum
      ∧ (lookupA (processOperation p execID op (.ok w)).dq execID).map
          (fun q => q.items) = some (Q.items ++ [(op, w)]))
    ∧ (lookupA (processOperation p execID op (.ok 0)).processingNum execID
          = some (n - 1)
       ∧ (lookupA (processOperation p execID op (.ok 0)).dq execID).map
          (fun q => q.items) = some Q.items)
    ∧ (lookupA (processOperation p execID op (.fail w m)).processingNum execID
          = some (n - 1)
       ∧ (lookupA (processOperation p execID op (.fail w m)).dq execID).map
          (fun q => q.items) = some Q.items) := by
  refine ⟨⟨?_, ?_⟩, ⟨?_, ?_⟩, ?_, ?_⟩ <;>
    simp [processOperation, doneQ, addAfterS, decrementNum, hq, hn, hw,
      lookupA_setA_eq, setA_setA]

theorem processOperation_accounting_witness :
    let p : ParallelOrchestrationStrategy :=
      { dq := [("exec-1", emptyDelayQueue)], wg := [("exec-1", 2)],
        rescheduleDelay := 5, processingNum := [("exec-1", 3)] }
    let op : RuntimeOperation :=
      { id := "op-1", maintenanceWindowBegin := 0, maintenanceWindowEnd := 0,
        maintenanceDays := [] }
    lookupA p.dq "exec-1" = some emptyDelayQueue
    ∧ lookupA p.processingNum "exec-1" = some 3
    ∧ (300 : Int) ≠ 0
    ∧ (((processOperation p "exec-1" op (.ok 300)).processingNum = p.processingNum
        ∧ (lookupA (processOperation p "exec-1" op (.ok 300)).dq "exec-1").map
            (fun q => q.items) = some (emptyDelayQueue.items ++ [(op, 300)]))
      ∧ (lookupA (processOperation p "exec-1" op (.ok 0)).processingNum "exec-1"
            = some (3 - 1)
         ∧ (lookupA (processOperation p "exec-1" op (.ok 0)).dq "exec-1").map
            (fun q => q.items) = some emptyDelayQueue.items)
      ∧ (lookupA (processOperation p "exec-1" op
            (.fail 300 "boom")).processingNum "exec-1" = some (3 - 1)
         ∧ (lookupA (processOperation p "exec-1" op (.fail 300 "boom")).dq
            "exec-1").map (fun q => q.items) = some emptyDelayQueue.items)) := by
  refine ⟨by decide, by decide, by decide, ?_⟩
  exact processOperation_accounting _ "exec-1" _ emptyDelayQueue 3 300 "boom"
    (by decide) (by decide) (by decide)

def panicDemoStrategy : ParallelOrchestrationStrategy :=
  { dq := [("exec-1", { items := [], processing := ["op-1"], shuttingDown := false })],
    wg := [("exec-1", 2)], rescheduleDelay := 86400,
    processingNum := [("exec-1", 1)] }

def panicDemoOp : RuntimeOperation :=
  { id := "op-1", maintenanceWindowBegin := 0, maintenanceWindowEnd := 0,
    maintenanceDays := [] }

/-- Claim C1 (code bug): when `Executor.Execute` panics, the deferred
`recover` traps the panic (the worker survives and `Done` runs), but
control never reaches the counter decrement below the executor call, so
the outstanding counter stays at 1 — unlike the terminal-error path, which
decrements it to 0.  The execution therefore cannot drain, contrary to the
claim and to the spec's stated intent. -/
theorem processOperation_panicked_skips_decrement :
    lookupA (processOperation panicDemoStrategy "exec-1" panicDemoOp
        (.panicked "executor fault")).processingNum "exec-1" = some 1
    ∧ lookupA (processOperation panicDemoStrategy "exec-1" panicDemoOp
        (.fail 0 "terminal")).processingNum "exec-1" = some 0
    ∧ (processOperation panicDemoStrategy "exec-1" panicDemoOp
        (.panicked "executor fault")).processingNum
      ≠ (processOperation panicDemoStrategy "exec-1" panicDemoOp
        (.fail 0 "terminal")).processingNum := by
  decide

/-- Claim C3 (code bug): the failing input runs `Execute` on
`[op-bad, op-good]` where only `op-bad`'s maintenance-policy evaluation
errors (elapsed window, `Executor.Reschedule` fails for it).  The
reschedule-error policy enqueues `&op`, the shared range variable, which
the final iteration overwrites with `op-good`'s copy; so the 24-hour
backstop entry dereferences to `op-good`, `op-bad` appears nowhere in the
queue, and `op-good` is queued twice — while the outstanding counter still
counts both operations, so the execution can never drain.  The claim (and
the spec: the operation "is not dropped", the execution ID "covers all
supplied operations") states the intent; the shared-loop-variable capture
is the slip. -/
theorem Execute_sharedLoopVar_drops_failing_op :
    let p : ParallelOrchestrationStrategy :=
      { dq := [], wg := [], rescheduleDelay := 5, processingNum := [] }
    let reschedule : String → Int → Int → Option String :=
      fun id _ _ => if id = "op-bad" then some "storage down" else none
    let opBad : RuntimeOperation :=
      { id := "op-bad", maintenanceWindowBegin := 10, maintenanceWindowEnd := 20,
        maintenanceDays := [] }
    let opGood : RuntimeOperation :=
      { id := "op-good", maintenanceWindowBegin := 40, maintenanceWindowEnd := 0,
        maintenanceDays := [] }
    let spec : StrategySpec :=
      { schedule := .maintenanceWindow, parallel := { workers := 2 } }
    let result := Execute p reschedule 100 "exec-1" [opBad, opGood] spec
    result.2.1 = "exec-1"
    ∧ result.2.2 = none
    ∧ lookupA result.1.processingNum "exec-1" = some 2
    ∧ (updateMaintenanceWindow p.rescheduleDelay reschedule 100 opBad
        spec.schedule).err = some "storage down"
    ∧ ((lookupA result.1.dq "exec-1").map
        (fun q => q.items.map (fun e => (e.1.id, e.2))))
      = some [("op-good", 24 * hourSeconds), ("op-good", 40 - 100)]
    ∧ ((lookupA result.1.dq "exec-1").map
        (fun q => q.items.all (fun e => e.1.id ≠ "op-bad"))) = some true := by
  decide

/-- Storage / request errors as the handler distinguishes them
(`dberr.IsNotFound`, `apiErrors.IsBadRequest`, anything else). -/
inductive DbErr where
  | notFound (msg : String)
  | badRequest (msg : String)
  | other (msg : String)
deriving DecidableEq, Repr

/-- `(h *orchestrationHandler) resolveErrorStatus`. -/
def resolveErrorStatus : DbErr → Nat
  | .notFound _ => 404
  | .badRequest _ => 400
  | .other _ => 500

/-- `orchestration.Type` as the handler dispatches on it. -/
inductive OrchestrationType where
  | upgradeKyma
  | upgradeCluster
  | unknownType (s : String)
deriving DecidableEq, Repr

structure Orchestration where
  orchestrationID : String
  otype : OrchestrationType
deriving DecidableEq, Repr

/-- `orchestration.RetryResponse` as the handler reads and writes it:
accepted operation IDs (`RetryOperations`), rejected ones, and `Msg`. -/
structure RetryResponse where
  retryOperations : List String
  rejectedOperations : List String
  msg : String
deriving DecidableEq, Repr

/-- What the handler writes to the response writer: an error response with
a status (`httputil.WriteErrorResponse`) or a normal response with a status
and the retry body (`httputil.WriteResponse`). -/
inductive HttpOut where
  | errorResp (status : Nat)
  | okResp (status : Nat) (body : RetryResponse)
deriving DecidableEq, Repr

def urlEncodedContentType : String := "application/x-www-form-urlencoded"

/-- `(h *orchestrationHandler) retryOrchestrationByID`.  The collaborators
are passed as explicit values: the request's content type, the result of
`r.ParseForm`, the result of `h.orchestrations.GetByID`, the results of the
per-kind operation listings, and the responses the two retryer calls leave
in `h.retryer.resp` (or their errors). -/
def retryOrchestrationByID (contentType : String) (parseFormErr : Option DbErr)
    (getByID : Except DbErr Orchestration)
    (listKymaOps : Except String Unit) (listClusterOps : Except String Unit)
    (kymaRetry : Except String RetryResponse)
    (clusterRetry : Except String RetryResponse) : HttpOut :=
  if contentType ≠ urlEncodedContentType then
    .errorResp 415
  else
    match parseFormErr with
    | some e => .errorResp (resolveErrorStatus e)
    | none =>
      match getByID with
      | .error e => .errorResp (resolveErrorStatus e)
      | .ok o =>
        match o.otype with
        | .upgradeKyma =>
          match listKymaOps with
          | .error _ => .errorResp 500
          | .ok _ =>
            match kymaRetry with
            | .error _ => .errorResp 500
            | .ok resp =>
              if resp.retryOperations.length = 0 then
                .okResp 202 resp
              else
                .okResp 202
                  { resp with msg := "retry operations are queued for processing" }
        | .upgradeCluster =>
          match listClusterOps with
          | .error _ => .errorResp 500
          | .ok _ =>
            match clusterRetry with
            | .error _ => .errorResp 500
            | .ok resp =>
              if resp.retryOperations.length = 0 then
                .okResp 202 resp
              else
                .okResp 202
                  { resp with msg := "retry operations are queued for processing" }
        | .unknownType _ => .errorResp 500

/-- Modelled from the spec: the retryer (`kymaUpgradeRetry` and
`clusterUpgradeRetry`, whose source is not under src/) composes the
response listing the operation IDs accepted for retry and the rejected
ones, and fills `Msg` with an informational message when no operation was
accepted. -/
def retryerResponse (accepted rejected : List String) : RetryResponse :=
  { retryOperations := accepted
    rejectedOperations := rejected
    msg := if accepted.isEmpty then "no operations in orchestration to retry" else "" }

/-- Claim C8: a retry request on which zero operations end up accepted is
answered with HTTP 202 (Accepted) carrying the empty accepted list and the
retryer's informational message — `WriteResponse`, not an error status. -/
theorem retryOrchestrationByID_zero_accepted (o : Orchestration)
    (rejected : List String)
    (hk : o.otype = .upgradeKyma ∨ o.otype = .upgradeCluster) :
    retryOrchestrationByID urlEncodedContentType none (.ok o) (.ok ()) (.ok ())
        (.ok (retryerResponse [] rejected)) (.ok (retryerResponse [] rejected))
      = .okResp 202 (retryerResponse [] rejected)
    ∧ (retryerResponse [] rejected).retryOperations = []
    ∧ (retryerResponse [] rejected).msg ≠ "" := by
  refine ⟨?_, rfl, by simp [retryerResponse]⟩
  rcases hk with hk | hk <;>
    simp [retryOrchestrationByID, hk, retryerResponse]

theorem retryOrchestrationByID_zero_accepted_witness :
    let o : Orchestration :=
      { orchestrationID := "orch-1", otype := .upgradeKyma }
    (o.otype = .upgradeKyma ∨ o.otype = .upgradeCluster)
    ∧ (retryOrchestrationByID urlEncodedContentType none (.ok o) (.ok ()) (.ok ())
        (.ok (retryerResponse [] ["op-9"])) (.ok (retryerResponse [] ["op-9"]))
      = .okResp 202 (retryerResponse [] ["op-9"])
    ∧ (retryerResponse [] ["op-9"]).retryOperations = []
    ∧ (retryerResponse [] ["op-9"]).msg ≠ "") := by
  refine ⟨by decide, ?_⟩
  exact retryOrchestrationByID_zero_accepted _ ["op-9"] (by decide)
